import Mathlib

/-!
Verification of the Oasis topology compiler (`start.py`).

The source program builds, in `write_compose`, a nested dictionary describing
a docker-compose document (services, volumes, networks) from a `Config`
value, and renders it to text with the generic recursive serializer
`dict_to_yaml`.  We embed the value tree, the serializer, the team-array
generator and the compose-document construction, and prove the spec claims
about them.
-/

namespace Oasis

/-- The tagged value tree consumed by `dict_to_yaml`: a Python value that is
recursively a scalar (modelled by its rendered string), an ordered mapping,
or a sequence. -/
inductive Value where
  | scalar (s : String)
  | dict (entries : List (String × Value))
  | list (items : List Value)

/-- Padding of `n` spaces. -/
def spacesStr (n : Nat) : String :=
  String.mk (List.replicate n ' ')

mutual

/-- Embedding of `dict_to_yaml(data, indent_spaces, base_indent,
additional_spaces, add_text_on_dict)` from `start.py` lines 108-133. -/
def dict_to_yaml : Value → Nat → Nat → Nat → Option String → String
  | .scalar s, _, _, _, _ => s ++ "\n"
  | .dict kvs, ind, base, add, addText => renderDict kvs ind base add addText
  | .list items, ind, base, add, _ => renderList items ind base add

/-- The `isinstance(data, dict)` branch of `dict_to_yaml`: the
`add_text_on_dict` marker is consumed by the first key only, and the
padding is reset to `indent_spaces*base_indent + additional_spaces`
for the following keys. -/
def renderDict : List (String × Value) → Nat → Nat → Nat → Option String → String
  | [], _, _, _, _ => ""
  | (k, v) :: rest, ind, base, add, addText =>
    let pad :=
      match addText with
      | none => spacesStr (ind * base + add)
      | some t => spacesStr ((ind * base + add) - t.length) ++ t
    (match v with
     | .scalar s => pad ++ k ++ ": " ++ s ++ "\n"
     | .dict kvs => pad ++ k ++ ":\n" ++ renderDict kvs ind (base + 1) add none
     | .list items => pad ++ k ++ ":\n" ++ renderList items ind (base + 1) add)
    ++ renderDict rest ind base add none

/-- The `isinstance(data, list)` branch of `dict_to_yaml`: a mapping item is
rendered with two extra padding columns and the `"- "` marker on its first
key; a nested sequence recurses one indent level deeper; a scalar item is a
`- item` line. -/
def renderList : List Value → Nat → Nat → Nat → String
  | [], _, _, _ => ""
  | item :: rest, ind, base, add =>
    (match item with
     | .dict kvs => renderDict kvs ind base (add + 2) (some "- ")
     | .list items => renderList items ind (base + 1) add
     | .scalar s => spacesStr (ind * base + add) ++ "- " ++ s ++ "\n")
    ++ renderList rest ind base add

end

/-- A wireguard profile pin entry (`PinEntry` dataclass). -/
structure PinEntry where
  pin : String
  profile : Nat
deriving DecidableEq

/-- The `Team` dataclass of `start.py`. Python's `str(int)` rendering of the
numeric fields agrees with `toString` on `Nat`. -/
structure Team where
  id : Nat
  name : String
  token : String
  wireguard_port : Nat
  nop : Bool := false
  image : String := ""
  pins : List PinEntry := []
deriving DecidableEq

/-- The `Config` dataclass of `start.py` (the Config Model). -/
structure Config where
  wireguard_start_port : Nat
  wireguard_profiles : Nat
  server_addr : String
  dns : String
  tick_time : Nat
  flag_expire_ticks : Nat
  initial_service_score : Nat
  max_flags_per_request : Nat
  submission_timeout : Rat
  network_limit_bandwidth : String
  max_vm_cpus : String
  max_vm_mem : String
  gameserver_token : String
  teams : List Team := []
  unsafe_privileged : Bool := false
  start_time : Option String := none
  end_time : Option String := none
  max_disk_size : Option String := none
  gameserver_exposed_port : Option String := none
  debug : Bool := false
  pin_data_added : Bool := false

/-- The ambient process environment read by `write_compose`: `os.getuid()`,
`os.getgid()` and the `is_linux()` test.  These are fixed for a run and are
not part of the Config Model. -/
structure SysEnv where
  uid : Nat
  gid : Nat
  linux : Bool

/-- Embedding of `generate_teams_array(number_of_teams, enable_nop_team,
wireguard_start_port)` (`start.py` lines 552-566).  `secrets.token_hex(32)`
is a fresh random token per iteration; it is modelled by the oracle
`tokenGen`, indexed by the loop variable. -/
def generate_teams_array (number_of_teams : Nat) (enable_nop_team : Bool)
    (wireguard_start_port : Nat) (tokenGen : Nat → String) : List Team :=
  (List.range (number_of_teams + (if enable_nop_team then 1 else 0))).map fun i =>
    { id := i
      name := if i = 0 ∧ enable_nop_team then "Nop Team" else "Team " ++ toString i
      token := tokenGen i
      wireguard_port := wireguard_start_port + i
      nop := i == 0 && enable_nop_team
      image := "" }

/-- The loop `while args.number_of_teams < 0 or args.number_of_teams >= 250`:
the team-count values `config_input` accepts (`start.py` lines 587-589).
The value is non-negative by `abs()`. -/
def teams_count_accepted (n : Nat) : Bool :=
  n < 250

/-- The loop `while args.wireguard_start_port < 1 or args.wireguard_start_port >
65535-args.number_of_teams`: the wireguard start-port values `config_input`
accepts for a given team count (`start.py` lines 592-595). -/
def wireguard_port_accepted (number_of_teams p : Nat) : Bool :=
  1 ≤ p && p ≤ 65535 - number_of_teams

/-- The `networks` mapping of the router service (`start.py` lines 297-315):
every team's VM network at `10.60.id.250`, the shared gameserver network at
`10.10.0.250`, the external network, and every non-nop team's players
network at `10.80.id.250`. -/
def routerNetworks (c : Config) : List (String × Value) :=
  (c.teams.map fun t =>
    ("vm-team" ++ toString t.id, Value.dict [
      ("priority", .scalar "10"),
      ("ipv4_address", .scalar ("10.60." ++ toString t.id ++ ".250"))]))
  ++ [("gameserver", Value.dict [
        ("priority", .scalar "10"),
        ("ipv4_address", .scalar "10.10.0.250")]),
      ("externalnet", Value.dict [("priority", .scalar "1")])]
  ++ ((c.teams.filter fun t => !t.nop).map fun t =>
    ("players" ++ toString t.id, Value.dict [
      ("priority", .scalar "10"),
      ("ipv4_address", .scalar ("10.80." ++ toString t.id ++ ".250"))]))

/-- The `router` service entry (`start.py` lines 274-316). -/
def routerService (c : Config) : Value :=
  .dict [
    ("hostname", .scalar "router"),
    ("dns", .list [.scalar c.dns]),
    ("build", .scalar "./router"),
    ("cap_add", .list [.scalar "NET_ADMIN", .scalar "SYS_MODULE", .scalar "SYS_ADMIN"]),
    ("sysctls", .list [
      .scalar "net.ipv4.ip_forward=1",
      .scalar "net.ipv4.tcp_timestamps=0",
      .scalar "net.ipv4.conf.all.rp_filter=1",
      .scalar "net.ipv6.conf.all.forwarding=0"]),
    ("environment", .dict [
      ("NTEAM", .scalar (toString c.teams.length)),
      ("RATE_NET", .scalar c.network_limit_bandwidth)]),
    ("volumes", .list [.scalar "unixsk:/unixsk"]),
    ("restart", .scalar "unless-stopped"),
    ("networks", .dict (routerNetworks c))]

/-- The `database` service entry (`start.py` lines 317-333). -/
def databaseService (c : Config) : Value :=
  .dict [
    ("hostname", .scalar "oasis-database"),
    ("dns", .list [.scalar c.dns]),
    ("image", .scalar "postgres:17"),
    ("restart", .scalar "unless-stopped"),
    ("environment", .dict [
      ("POSTGRES_USER", .scalar "oasis"),
      ("POSTGRES_PASSWORD", .scalar "oasis"),
      ("POSTGRES_DB", .scalar "oasis")]),
    ("volumes", .list [.scalar "oasis-postgres-db:/var/lib/postgresql/data"]),
    ("networks", .dict [("internalnet", .scalar "")])]

/-- The `gameserver` service entry (`start.py` lines 334-367); the `ports`
key is spliced in only when `gameserver_exposed_port` is set. -/
def gameserverService (c : Config) : Value :=
  .dict ([
    ("hostname", .scalar "gameserver"),
    ("dns", .list [.scalar c.dns]),
    ("build", .scalar "./game_server"),
    ("restart", .scalar "unless-stopped"),
    ("container_name", .scalar "oasis_gameserver"),
    ("cap_add", .list [.scalar "NET_ADMIN"])]
  ++ (match c.gameserver_exposed_port with
      | some p => [("ports", Value.list [.scalar (p ++ ":80")])]
      | none => [])
  ++ [
    ("depends_on", .list
      (.scalar "router" :: .scalar "database" ::
        c.teams.map fun t => .scalar ("team" ++ toString t.id))),
    ("networks", .dict [
      ("internalnet", .dict [("priority", .scalar "1")]),
      ("gameserver", .dict [
        ("priority", .scalar "10"),
        ("ipv4_address", .scalar "10.10.0.1")])]),
    ("volumes", .list [
      .scalar "./game_server/checkers:/app/checkers:z",
      .scalar "unixsk:/unixsk",
      .scalar "./config.json:/app/config.json:z"])])

/-- A team's VM service entry `team{id}` (`start.py` lines 368-395).
`storage_opt` follows Python truthiness of `config.max_disk_size`
(absent or empty string means omitted). -/
def teamService (c : Config) (t : Team) : Value :=
  .dict ([
    ("hostname", .scalar ("team" ++ toString t.id)),
    ("dns", .list [.scalar c.dns]),
    ("build", .dict [
      ("context", .scalar "./vm"),
      ("args", .dict [("TOKEN", .scalar t.token)])])]
  ++ (match c.max_disk_size with
      | some s =>
        if s.isEmpty then []
        else [("storage_opt", Value.dict [("size", .scalar s)])]
      | none => [])
  ++ (if c.unsafe_privileged then [("privileged", Value.scalar "true")]
      else [("runtime", Value.scalar "sysbox-runc")])
  ++ [
    ("restart", .scalar "unless-stopped"),
    ("networks", .dict [
      ("vm-team" ++ toString t.id, .dict [
        ("ipv4_address", .scalar ("10.60." ++ toString t.id ++ ".1"))])]),
    ("deploy", .dict [
      ("resources", .dict [
        ("limits", .dict [
          ("cpus", .scalar ("\"" ++ c.max_vm_cpus ++ "\"")),
          ("memory", .scalar c.max_vm_mem)])])])])

/-- A non-nop team's VPN endpoint service entry `wireguard{id}`
(`start.py` lines 396-433).  `PUID`/`PGID` come from the ambient
environment, not the config. -/
def wireguardService (env : SysEnv) (c : Config) (t : Team) : Value :=
  .dict [
    ("hostname", .scalar ("wireguard" ++ toString t.id)),
    ("dns", .list [.scalar c.dns]),
    ("build", .scalar "./wireguard"),
    ("restart", .scalar "unless-stopped"),
    ("cap_add", .list [.scalar "NET_ADMIN", .scalar "SYS_MODULE"]),
    ("sysctls", .list [
      .scalar "net.ipv4.ip_forward=1",
      .scalar "net.ipv4.conf.all.src_valid_mark=1"]),
    ("volumes", .list [.scalar ("./wireguard/conf" ++ toString t.id ++ ":/config:z")]),
    ("networks", .dict [
      ("players" ++ toString t.id, .dict [
        ("ipv4_address", .scalar ("10.80." ++ toString t.id ++ ".128"))])]),
    ("ports", .list [.scalar (toString (c.wireguard_start_port + t.id) ++ ":51820/udp")]),
    ("environment", .dict [
      ("PUID", .scalar (toString (if env.linux then env.uid else 0))),
      ("PGID", .scalar (toString (if env.linux then env.gid else 0))),
      ("TZ", .scalar "Etc/UTC"),
      ("PEERS", .scalar (toString c.wireguard_profiles)),
      ("PEERDNS", .scalar c.dns),
      ("ALLOWEDIPS", .scalar "10.10.0.0/16, 10.60.0.0/16, 10.80.0.0/16"),
      ("SERVERURL", .scalar c.server_addr),
      ("SERVERPORT", .scalar (toString (c.wireguard_start_port + t.id))),
      ("INTERNAL_SUBNET", .scalar ("10.80." ++ toString t.id ++ ".0/24"))])]

/-- The ordered `services` mapping of the compose document (`start.py`
lines 273-434): router, database, gameserver, one `team{id}` service per
team, one `wireguard{id}` service per non-nop team. -/
def composeServices (env : SysEnv) (c : Config) : List (String × Value) :=
  [("router", routerService c),
   ("database", databaseService c),
   ("gameserver", gameserverService c)]
  ++ (c.teams.map fun t => ("team" ++ toString t.id, teamService c t))
  ++ ((c.teams.filter fun t => !t.nop).map fun t =>
       ("wireguard" ++ toString t.id, wireguardService env c t))

/-- The ordered `networks` mapping of the compose document (`start.py`
lines 439-484): the external and internal networks, the shared gameserver
network, one VM network per team, one players network per non-nop team. -/
def composeNetworks (c : Config) : List (String × Value) :=
  [("externalnet", .scalar ""),
   ("internalnet", .scalar ""),
   ("gameserver", .dict [
     ("internal", .scalar "true"),
     ("driver", .scalar "macvlan"),
     ("ipam", .dict [
       ("driver", .scalar "default"),
       ("config", .list [.dict [
         ("subnet", .scalar "10.10.0.0/24"),
         ("gateway", .scalar "10.10.0.254")]])])])]
  ++ (c.teams.map fun t =>
    ("vm-team" ++ toString t.id, Value.dict [
      ("internal", .scalar "true"),
      ("driver", .scalar "macvlan"),
      ("ipam", .dict [
        ("driver", .scalar "default"),
        ("config", .list [.dict [
          ("subnet", .scalar ("10.60." ++ toString t.id ++ ".0/24")),
          ("gateway", .scalar ("10.60." ++ toString t.id ++ ".254"))]])])]))
  ++ ((c.teams.filter fun t => !t.nop).map fun t =>
    ("players" ++ toString t.id, Value.dict [
      ("driver", .scalar "bridge"),
      ("ipam", .dict [
        ("driver", .scalar "default"),
        ("config", .list [.dict [
          ("subnet", .scalar ("10.80." ++ toString t.id ++ ".0/24")),
          ("gateway", .scalar ("10.80." ++ toString t.id ++ ".254"))]])])]))

/-- The whole nested dictionary `write_compose` passes to `dict_to_yaml`
(`start.py` lines 272-485). -/
def composeValue (env : SysEnv) (c : Config) : Value :=
  .dict [
    ("services", .dict (composeServices env c)),
    ("volumes", .dict [("unixsk", .scalar ""), ("oasis-postgres-db", .scalar "")]),
    ("networks", .dict (composeNetworks c))]

/-- The rendered text `write_compose` writes to the compose file:
`dict_to_yaml` applied to the compose dictionary with its default
parameters (`indent_spaces=4, base_indent=0, additional_spaces=0,
add_text_on_dict=None`). -/
def write_compose (env : SysEnv) (c : Config) : String :=
  dict_to_yaml (composeValue env c) 4 0 0 none

/-- Association-list lookup on a mapping's entries, first match wins
(Python dict key access for the keys used here, which are built without
collisions). -/
def lookupKey (kvs : List (String × Value)) (k : String) : Option Value :=
  match kvs with
  | [] => none
  | (k', v) :: rest => if k' = k then some v else lookupKey rest k

/-- The field `k` of a mapping value. -/
def Value.field (v : Value) (k : String) : Option Value :=
  match v with
  | .dict kvs => lookupKey kvs k
  | _ => none

/-- The service names listed in a service entry's `depends_on` sequence. -/
def dependsNames (v : Value) : List String :=
  match v.field "depends_on" with
  | some (.list items) =>
    items.filterMap fun it =>
      match it with
      | .scalar s => some s
      | _ => none
  | _ => []

/-- The network names a service entry is attached to (the keys of its
`networks` mapping). -/
def attachNames (v : Value) : List String :=
  match v.field "networks" with
  | some (.dict kvs) => kvs.map Prod.fst
  | _ => []

/-- The external VPN ports allocated to the non-nop teams of a config, in
team order: `wireguard_start_port + team.id` as published by the
`wireguard{id}` services. -/
def wireguardPorts (c : Config) : List Nat :=
  (c.teams.filter fun t => !t.nop).map fun t => c.wireguard_start_port + t.id

/-! ### Concrete configurations used as test inputs -/

/-- A deterministic stand-in for the `secrets.token_hex(32)` oracle. -/
def tokenA : Nat → String := fun i => "tok" ++ toString i

/-- A config with the CLI default parameters and 4 teams, no nop team,
wireguard start port 51000, teams produced by `generate_teams_array`. -/
def cfg4With (tok : Nat → String) : Config where
  wireguard_start_port := 51000
  wireguard_profiles := 30
  server_addr := "203.0.113.1"
  dns := "1.1.1.1"
  tick_time := 120
  flag_expire_ticks := 5
  initial_service_score := 5000
  max_flags_per_request := 3000
  submission_timeout := 3 / 100
  network_limit_bandwidth := "20mbit"
  max_vm_cpus := "1"
  max_vm_mem := "2G"
  gameserver_token := "gstoken"
  teams := generate_teams_array 4 false 51000 tok

def cfg4 : Config := cfg4With tokenA

/-- Like `cfg4` but with the nop team enabled and 3 regular teams. -/
def cfgNop : Config := { cfg4 with teams := generate_teams_array 3 true 51000 tokenA }

/-- Like `cfg4` but with no teams at all. -/
def cfg0 : Config := { cfg4 with teams := [] }

/-- An out-of-range config: wireguard start port 65533 with 5 teams, so the
last allocated port would be 65537 > 65535. -/
def cfgBad : Config :=
  { cfg4 with wireguard_start_port := 65533
              teams := generate_teams_array 5 false 65533 tokenA }

/-- A fixed ambient environment for concrete runs. -/
def env0 : SysEnv := ⟨1000, 1000, true⟩

/-! ### Claims -/

/-- The environment binding `k` of a service entry. -/
def serviceEnvField (v : Value) (k : String) : Option Value :=
  match v.field "environment" with
  | some e => e.field k
  | none => none

/-! ### Decimal rendering of naturals is injective

The generated keys (`team3`, `vm-team3`, `players3`, `wireguard3`, …) embed
`str(team.id)`.  To reason about key collisions we prove that `toString` on
`Nat` (i.e. `Nat.repr`) is injective. -/

/-- The characters of the decimal representation of `n`, most significant
digit first: the fuel-free description of `Nat.toDigits 10 n`. -/
def reprChars (n : Nat) : List Char :=
  if n < 10 then [Nat.digitChar n]
  else reprChars (n / 10) ++ [Nat.digitChar (n % 10)]
decreasing_by exact Nat.div_lt_self (by omega) (by omega)

theorem reprChars_ne_nil (n : Nat) : reprChars n ≠ [] := by
  rw [reprChars]
  split <;> simp

theorem toDigitsCore_eq_reprChars :
    ∀ n f (l : List Char), n < f → Nat.toDigitsCore 10 f n l = reprChars n ++ l := by
  intro n
  induction n using Nat.strong_induction_on with
  | _ n ih =>
    intro f l hf
    match f with
    | 0 => omega
    | f + 1 =>
      by_cases h10 : n < 10
      · have hdiv : n / 10 = 0 := Nat.div_eq_of_lt h10
        have hmod : n % 10 = n := Nat.mod_eq_of_lt h10
        simp [Nat.toDigitsCore, hdiv, hmod, reprChars, h10]
      · have hdiv : n / 10 ≠ 0 := by
          intro h0
          exact h10 (by omega)
        have hlt : n / 10 < n := Nat.div_lt_self (by omega) (by omega)
        have hfuel : n / 10 < f := by omega
        rw [reprChars]
        simp only [Nat.toDigitsCore, hdiv, if_false, h10]
        rw [ih (n / 10) hlt f _ hfuel, List.append_assoc]
        simp

theorem repr_eq_reprChars (n : Nat) : Nat.repr n = (reprChars n).asString := by
  rw [Nat.repr, Nat.toDigits,
    toDigitsCore_eq_reprChars n (n + 1) [] (Nat.lt_succ_self n), List.append_nil]

theorem digitChar_inj_lt10 :
    ∀ a < 10, ∀ b < 10, Nat.digitChar a = Nat.digitChar b → a = b := by
  decide

theorem reprChars_lt (n : Nat) (h : n < 10) : reprChars n = [Nat.digitChar n] := by
  rw [reprChars, if_pos h]

theorem reprChars_ge (n : Nat) (h : ¬n < 10) :
    reprChars n = reprChars (n / 10) ++ [Nat.digitChar (n % 10)] := by
  rw [reprChars]
  exact if_neg h

theorem reprChars_inj : ∀ m n : Nat, reprChars m = reprChars n → m = n := by
  intro m
  induction m using Nat.strong_induction_on with
  | _ m ih =>
    intro n h
    by_cases hm : m < 10 <;> by_cases hn : n < 10
    · rw [reprChars_lt m hm, reprChars_lt n hn] at h
      exact digitChar_inj_lt10 m hm n hn (by injection h)
    · rw [reprChars_lt m hm, reprChars_ge n hn] at h
      have hl := congrArg List.length h
      rw [List.length_append] at hl
      simp only [List.length_cons, List.length_nil] at hl
      have hnil : reprChars (n / 10) = [] := List.length_eq_zero.mp (by omega)
      exact absurd hnil (reprChars_ne_nil _)
    · rw [reprChars_ge m hm, reprChars_lt n hn] at h
      have hl := congrArg List.length h
      rw [List.length_append] at hl
      simp only [List.length_cons, List.length_nil] at hl
      have hnil : reprChars (m / 10) = [] := List.length_eq_zero.mp (by omega)
      exact absurd hnil (reprChars_ne_nil _)
    · rw [reprChars_ge m hm, reprChars_ge n hn] at h
      have hlen : [Nat.digitChar (m % 10)].length = [Nat.digitChar (n % 10)].length := rfl
      obtain ⟨h1, h2⟩ := List.append_inj' h hlen
      have hdiv : m / 10 = n / 10 :=
        ih (m / 10) (Nat.div_lt_self (by omega) (by omega)) (n / 10) h1
      have hmod : m % 10 = n % 10 :=
        digitChar_inj_lt10 _ (Nat.mod_lt m (by omega)) _ (Nat.mod_lt n (by omega))
          (by injection h2)
      omega

theorem natToString_inj {m n : Nat} (h : toString m = toString n) : m = n := by
  have h' : Nat.repr m = Nat.repr n := h
  rw [repr_eq_reprChars, repr_eq_reprChars] at h'
  have hdata : reprChars m = reprChars n := congrArg String.data h'
  exact reprChars_inj m n hdata

/-! ### Disequality of generated keys

The compose document's keys fall into classes with pairwise distinct first
characters (`router`, `database`, `gameserver`, `team…`, `wireguard…`,
`externalnet`, `internalnet`, `vm-team…`, `players…`); within one class the
numeric suffix decides equality. -/

theorem firstChar_append (s t : String) (c : Char) (h : s.data.head? = some c) :
    (s ++ t).data.head? = some c := by
  rw [String.data_append]
  cases hs : s.data with
  | nil => rw [hs] at h; cases h
  | cons a as =>
    rw [hs] at h
    simp at h
    simp [h]

theorem ne_of_firstChar {s t : String} (h : s.data.head? ≠ t.data.head?) : s ≠ t :=
  fun he => h (by rw [he])

theorem key_ne_key (p q : String) (cp cq : Char)
    (hp : p.data.head? = some cp) (hq : q.data.head? = some cq)
    (hne : cp ≠ cq) (x y : String) : p ++ x ≠ q ++ y := by
  apply ne_of_firstChar
  rw [firstChar_append p x cp hp, firstChar_append q y cq hq]
  simp [hne]

theorem key_ne_lit (p : String) (cp : Char) (hp : p.data.head? = some cp)
    (lit : String) (cl : Char) (hl : lit.data.head? = some cl)
    (hne : cp ≠ cl) (x : String) : p ++ x ≠ lit := by
  apply ne_of_firstChar
  rw [firstChar_append p x cp hp, hl]
  simp [hne]

theorem key_suffix_inj (p : String) {m n : Nat}
    (h : p ++ toString m = p ++ toString n) : m = n := by
  apply natToString_inj
  have hdata := congrArg String.data h
  rw [String.data_append, String.data_append] at hdata
  have := List.append_cancel_left hdata
  exact String.ext this



/-- C10: `generate_teams_array(n, enable_nop, p)` returns `n+1` teams when
`enable_nop` is true and `n` teams otherwise; the teams have ids exactly
`0..len-1` in array order, each team's `wireguard_port` is `p + id`, and the
nop flag is set exactly on team 0 when `enable_nop` is true and on no team
otherwise. -/
theorem c10_generate_teams_array_shape (n : Nat) (e : Bool) (p : Nat) (tok : Nat → String) :
    (generate_teams_array n e p tok).length = n + (if e then 1 else 0) ∧
    ∀ i (h : i < (generate_teams_array n e p tok).length),
      ((generate_teams_array n e p tok).get ⟨i, h⟩).id = i ∧
      ((generate_teams_array n e p tok).get ⟨i, h⟩).wireguard_port = p + i ∧
      (((generate_teams_array n e p tok).get ⟨i, h⟩).nop = true ↔ i = 0 ∧ e = true) := by
  refine ⟨by simp [generate_teams_array], ?_⟩
  intro i h
  simp [generate_teams_array, List.get_eq_getElem, List.getElem_map,
    List.getElem_range, Bool.and_eq_true, beq_iff_eq]

theorem c10_generate_teams_array_shape_witness :
    (0 < (generate_teams_array 2 true 51000 fun _ => "t").length) ∧
    ((generate_teams_array 2 true 51000 fun _ => "t").get ⟨0, by decide⟩).wireguard_port
      = 51000 + 0 ∧
    (((generate_teams_array 2 true 51000 fun _ => "t").get ⟨0, by decide⟩).nop = true ↔
      0 = 0 ∧ true = true) :=
  ⟨by decide,
   ((c10_generate_teams_array_shape 2 true 51000 fun _ => "t").2 0 (by decide)).2.1,
   ((c10_generate_teams_array_shape 2 true 51000 fun _ => "t").2 0 (by decide)).2.2⟩

/-- C8: the serializer's structural rules.  A key whose value is a mapping
or sequence renders as `key:` at the current padding and its body one
`base_indent` level deeper (one fixed `indent_spaces` unit); a nested
sequence inside a sequence also recurses one level deeper; a sequence
element that is a mapping renders its first key on the `- ` marker line
(the marker occupying the two columns before the re-aligned position) and
its remaining keys two columns further in, under the first key; an empty
mapping value still renders its `key:` line followed by an empty block,
including when the mapping carrying it is an element of a sequence. -/
theorem c8_dict_to_yaml_rules :
    (∀ ind b a (k : String) entries rest,
      dict_to_yaml (.dict ((k, .dict entries) :: rest)) ind b a none
        = spacesStr (ind * b + a) ++ k ++ ":\n"
          ++ dict_to_yaml (.dict entries) ind (b + 1) a none
          ++ renderDict rest ind b a none) ∧
    (∀ ind b a (k : String) items rest,
      dict_to_yaml (.dict ((k, .list items) :: rest)) ind b a none
        = spacesStr (ind * b + a) ++ k ++ ":\n"
          ++ dict_to_yaml (.list items) ind (b + 1) a none
          ++ renderDict rest ind b a none) ∧
    (∀ ind b a items rest,
      dict_to_yaml (.list (.list items :: rest)) ind b a none
        = dict_to_yaml (.list items) ind (b + 1) a none
          ++ renderList rest ind b a) ∧
    (∀ ind b a (k s : String) kvs items,
      dict_to_yaml (.list (.dict ((k, .scalar s) :: kvs) :: items)) ind b a none
        = spacesStr (ind * b + a) ++ "- " ++ k ++ ": " ++ s ++ "\n"
          ++ renderDict kvs ind b (a + 2) none
          ++ renderList items ind b a) ∧
    (∀ ind b a (k : String) rest,
      dict_to_yaml (.dict ((k, .dict []) :: rest)) ind b a none
        = spacesStr (ind * b + a) ++ k ++ ":\n" ++ renderDict rest ind b a none) ∧
    (∀ ind b a (k : String),
      dict_to_yaml (.list [.dict [(k, .dict [])]]) ind b a none
        = spacesStr (ind * b + a) ++ "- " ++ k ++ ":\n") := by
  refine ⟨?_, ?_, ?_, ?_, ?_, ?_⟩
  · intros
    simp only [dict_to_yaml, renderDict, renderList]
  · intros
    simp only [dict_to_yaml, renderDict, renderList]
  · intros
    simp only [dict_to_yaml, renderDict, renderList]
  · intro ind b a k s kvs items
    have h2 : ind * b + (a + 2) - ("- " : String).length = ind * b + a := by
      have : ("- " : String).length = 2 := rfl
      omega
    simp only [dict_to_yaml, renderDict, renderList, h2]
  · intros
    simp [dict_to_yaml, renderDict, renderList, String.append_assoc]
  · intro ind b a k
    have h2 : ind * b + (a + 2) - ("- " : String).length = ind * b + a := by
      have : ("- " : String).length = 2 := rfl
      omega
    simp [dict_to_yaml, renderDict, renderList, h2, String.append_assoc]

/-- C1: `write_compose` is the composition of the topology construction and
`dict_to_yaml`, and is a deterministic function of the Config Model (for a
fixed ambient environment): identical configs with a valid team count
`0 ≤ n < 250` render to byte-identical text. -/
theorem c1_write_compose_deterministic (env : SysEnv) (c₁ c₂ : Config)
    (_hn : c₁.teams.length < 250) (h : c₁ = c₂) :
    write_compose env c₁ = write_compose env c₂ ∧
    write_compose env c₁ = dict_to_yaml (composeValue env c₁) 4 0 0 none :=
  ⟨by rw [h], rfl⟩

theorem c1_write_compose_deterministic_witness :
    cfg4.teams.length < 250 ∧ write_compose env0 cfg4 = write_compose env0 cfg4 :=
  ⟨by decide, (c1_write_compose_deterministic env0 cfg4 cfg4 (by decide) rfl).1⟩

/-! ### Field lookups inside the generated service entries -/

theorem lookupKey_append_of_none (xs ys : List (String × Value)) (k : String)
    (h : lookupKey xs k = none) : lookupKey (xs ++ ys) k = lookupKey ys k := by
  induction xs with
  | nil => simp
  | cons p rest ih =>
    obtain ⟨k', v⟩ := p
    rw [lookupKey] at h
    rw [List.cons_append, lookupKey]
    by_cases hk : k' = k
    · simp [hk] at h
    · simp only [hk, if_false] at h ⊢
      exact ih h


theorem gameserverService_depends (c : Config) :
    (gameserverService c).field "depends_on"
      = some (.list (.scalar "router" :: .scalar "database" ::
          (c.teams.map fun t => .scalar ("team" ++ toString t.id)))) := by
  rcases hgp : c.gameserver_exposed_port with _ | p <;>
    simp only [gameserverService, Value.field, hgp] <;> rfl

theorem gameserverService_networks (c : Config) :
    (gameserverService c).field "networks"
      = some (.dict [
          ("internalnet", .dict [("priority", .scalar "1")]),
          ("gameserver", .dict [
            ("priority", .scalar "10"),
            ("ipv4_address", .scalar "10.10.0.1")])]) := by
  rcases hgp : c.gameserver_exposed_port with _ | p <;>
    simp only [gameserverService, Value.field, hgp] <;> rfl

theorem teamService_networks (c : Config) (t : Team) :
    (teamService c t).field "networks"
      = some (.dict [("vm-team" ++ toString t.id, .dict [
          ("ipv4_address", .scalar ("10.60." ++ toString t.id ++ ".1"))])]) := by
  rcases hd : c.max_disk_size with _ | s <;> rcases hp : c.unsafe_privileged
  · simp only [teamService, Value.field, hd, hp]; rfl
  · simp only [teamService, Value.field, hd, hp]; rfl
  · by_cases hs : s.isEmpty <;>
      simp only [teamService, Value.field, hd, hp, hs, if_true, if_false] <;> rfl
  · by_cases hs : s.isEmpty <;>
      simp only [teamService, Value.field, hd, hp, hs, if_true, if_false] <;> rfl

theorem scalars_filterMap (f : Team → String) (l : List Team) :
    List.filterMap (fun it => match it with | Value.scalar s => some s | _ => none)
      (l.map fun t => Value.scalar (f t)) = l.map f := by
  induction l with
  | nil => rfl
  | cons t rest ih => simp [List.filterMap_cons, ih]

theorem dependsNames_gameserverService (c : Config) :
    dependsNames (gameserverService c)
      = "router" :: "database" :: (c.teams.map fun t => "team" ++ toString t.id) := by
  rw [dependsNames, gameserverService_depends]
  simp only [List.filterMap_cons]
  exact congrArg (fun l => "router" :: "database" :: l)
    (scalars_filterMap (fun t => "team" ++ toString t.id) c.teams)

theorem dependsNames_routerService (c : Config) :
    dependsNames (routerService c) = [] := rfl

theorem dependsNames_databaseService (c : Config) :
    dependsNames (databaseService c) = [] := rfl

theorem dependsNames_wireguardService (env : SysEnv) (c : Config) (t : Team) :
    dependsNames (wireguardService env c t) = [] := rfl

theorem dependsNames_teamService (c : Config) (t : Team) :
    dependsNames (teamService c t) = [] := by
  rcases hd : c.max_disk_size with _ | s <;> rcases hp : c.unsafe_privileged
  · simp only [teamService, dependsNames, Value.field, hd, hp]; rfl
  · simp only [teamService, dependsNames, Value.field, hd, hp]; rfl
  · by_cases hs : s.isEmpty <;>
      simp only [teamService, dependsNames, Value.field, hd, hp, hs, if_true, if_false] <;> rfl
  · by_cases hs : s.isEmpty <;>
      simp only [teamService, dependsNames, Value.field, hd, hp, hs, if_true, if_false] <;> rfl

theorem attachNames_routerService (c : Config) :
    attachNames (routerService c) = (routerNetworks c).map Prod.fst := rfl

theorem attachNames_databaseService (c : Config) :
    attachNames (databaseService c) = ["internalnet"] := rfl

theorem attachNames_gameserverService (c : Config) :
    attachNames (gameserverService c) = ["internalnet", "gameserver"] := by
  simp [attachNames, gameserverService_networks]

theorem attachNames_teamService (c : Config) (t : Team) :
    attachNames (teamService c t) = ["vm-team" ++ toString t.id] := by
  simp [attachNames, teamService_networks]

theorem attachNames_wireguardService (env : SysEnv) (c : Config) (t : Team) :
    attachNames (wireguardService env c t) = ["players" ++ toString t.id] := rfl

/-- C4: the gameserver service's dependency set is exactly router, database
and one `team{id}` service per team (nop team included); with zero teams the
compiler still emits exactly the router, database and gameserver services
and the three always-present networks, the team-keyed parts being empty. -/
theorem c4_gameserver_dependencies (env : SysEnv) (c : Config) :
    dependsNames (gameserverService c)
      = "router" :: "database" :: (c.teams.map fun t => "team" ++ toString t.id) ∧
    (c.teams = [] →
      composeServices env c =
        [("router", routerService c), ("database", databaseService c),
         ("gameserver", gameserverService c)] ∧
      composeNetworks c =
        [("externalnet", .scalar ""), ("internalnet", .scalar ""),
         ("gameserver", .dict [
           ("internal", .scalar "true"),
           ("driver", .scalar "macvlan"),
           ("ipam", .dict [
             ("driver", .scalar "default"),
             ("config", .list [.dict [
               ("subnet", .scalar "10.10.0.0/24"),
               ("gateway", .scalar "10.10.0.254")]])])])]) := by
  constructor
  · exact dependsNames_gameserverService c
  · intro h
    constructor <;> simp [composeServices, composeNetworks, h]

theorem c4_gameserver_dependencies_witness :
    cfg0.teams = [] ∧
    dependsNames (gameserverService cfg0) = ["router", "database"] ∧
    composeServices env0 cfg0 =
      [("router", routerService cfg0), ("database", databaseService cfg0),
       ("gameserver", gameserverService cfg0)] := by
  have h := c4_gameserver_dependencies env0 cfg0
  have h0 : cfg0.teams = [] := rfl
  refine ⟨h0, ?_, (h.2 h0).1⟩
  rw [h.1, h0]
  rfl

/-- C3: every non-nop team's VPN endpoint service publishes external port
`wireguard_start_port + team.id`, both in the published port mapping and in
the `SERVERPORT` environment binding; with start port 51000 and four
non-nop teams the allocated ports are exactly 51000–51003. -/
theorem c3_vpn_port_allocation (env : SysEnv) (c : Config) (t : Team)
    (ht : t ∈ c.teams) (hnop : t.nop = false) :
    ("wireguard" ++ toString t.id, wireguardService env c t) ∈ composeServices env c ∧
    (wireguardService env c t).field "ports"
      = some (.list [.scalar (toString (c.wireguard_start_port + t.id) ++ ":51820/udp")]) ∧
    serviceEnvField (wireguardService env c t) "SERVERPORT"
      = some (.scalar (toString (c.wireguard_start_port + t.id))) ∧
    ∀ tok, wireguardPorts (cfg4With tok) = [51000, 51001, 51002, 51003] := by
  refine ⟨?_, rfl, rfl, fun tok => rfl⟩
  apply List.mem_append_right
  apply List.mem_map_of_mem
  exact List.mem_filter.mpr ⟨ht, by simp [hnop]⟩

theorem c3_vpn_port_allocation_witness :
    serviceEnvField
        (wireguardService env0 cfg4 (Team.mk 2 "Team 2" (tokenA 2) 51002 false "" []))
        "SERVERPORT"
      = some (.scalar (toString (cfg4.wireguard_start_port + 2))) :=
  (c3_vpn_port_allocation env0 cfg4 (Team.mk 2 "Team 2" (tokenA 2) 51002 false "" [])
    (by decide) rfl).2.2.1

/-- C2: the compiled topology assigns team `i` the VM network
`10.60.i.0/24` with gateway `10.60.i.254`, router attachment `10.60.i.250`
and VM host `10.60.i.1`; every non-nop team the player network
`10.80.i.0/24` with gateway `10.80.i.254`, router attachment `10.80.i.250`
and VPN endpoint `10.80.i.128`; and the single shared gameserver network
`10.10.0.0/24` with gateway `10.10.0.254`, router attachment `10.10.0.250`
and gameserver host `10.10.0.1`. -/
theorem c2_address_allocation (env : SysEnv) (c : Config) (t : Team) (ht : t ∈ c.teams) :
    ("vm-team" ++ toString t.id, Value.dict [
        ("internal", .scalar "true"),
        ("driver", .scalar "macvlan"),
        ("ipam", .dict [
          ("driver", .scalar "default"),
          ("config", .list [.dict [
            ("subnet", .scalar ("10.60." ++ toString t.id ++ ".0/24")),
            ("gateway", .scalar ("10.60." ++ toString t.id ++ ".254"))]])])])
      ∈ composeNetworks c ∧
    ("vm-team" ++ toString t.id, Value.dict [
        ("priority", .scalar "10"),
        ("ipv4_address", .scalar ("10.60." ++ toString t.id ++ ".250"))])
      ∈ routerNetworks c ∧
    ("team" ++ toString t.id, teamService c t) ∈ composeServices env c ∧
    (teamService c t).field "networks"
      = some (.dict [("vm-team" ++ toString t.id, .dict [
          ("ipv4_address", .scalar ("10.60." ++ toString t.id ++ ".1"))])]) ∧
    (t.nop = false →
      ("players" ++ toString t.id, Value.dict [
          ("driver", .scalar "bridge"),
          ("ipam", .dict [
            ("driver", .scalar "default"),
            ("config", .list [.dict [
              ("subnet", .scalar ("10.80." ++ toString t.id ++ ".0/24")),
              ("gateway", .scalar ("10.80." ++ toString t.id ++ ".254"))]])])])
        ∈ composeNetworks c ∧
      ("players" ++ toString t.id, Value.dict [
          ("priority", .scalar "10"),
          ("ipv4_address", .scalar ("10.80." ++ toString t.id ++ ".250"))])
        ∈ routerNetworks c ∧
      (wireguardService env c t).field "networks"
        = some (.dict [("players" ++ toString t.id, .dict [
            ("ipv4_address", .scalar ("10.80." ++ toString t.id ++ ".128"))])])) ∧
    ("gameserver", Value.dict [
        ("internal", .scalar "true"),
        ("driver", .scalar "macvlan"),
        ("ipam", .dict [
          ("driver", .scalar "default"),
          ("config", .list [.dict [
            ("subnet", .scalar "10.10.0.0/24"),
            ("gateway", .scalar "10.10.0.254")]])])])
      ∈ composeNetworks c ∧
    ("gameserver", Value.dict [
        ("priority", .scalar "10"),
        ("ipv4_address", .scalar "10.10.0.250")]) ∈ routerNetworks c ∧
    (gameserverService c).field "networks"
      = some (.dict [
          ("internalnet", .dict [("priority", .scalar "1")]),
          ("gameserver", .dict [
            ("priority", .scalar "10"),
            ("ipv4_address", .scalar "10.10.0.1")])]) := by
  have hmem : ∀ t' ∈ c.teams, t'.nop = false → t' ∈ c.teams.filter fun u => !u.nop :=
    fun t' ht' hn => List.mem_filter.mpr ⟨ht', by simp [hn]⟩
  refine ⟨?_, ?_, ?_, teamService_networks c t, ?_, ?_, ?_, gameserverService_networks c⟩
  · exact List.mem_append_left _ (List.mem_append_right _ (List.mem_map_of_mem _ ht))
  · exact List.mem_append_left _ (List.mem_append_left _ (List.mem_map_of_mem _ ht))
  · exact List.mem_append_left _ (List.mem_append_right _ (List.mem_map_of_mem _ ht))
  · intro hnop
    exact ⟨List.mem_append_right _ (List.mem_map_of_mem _ (hmem t ht hnop)),
           List.mem_append_right _ (List.mem_map_of_mem _ (hmem t ht hnop)),
           rfl⟩
  · exact List.mem_append_left _
      (List.mem_append_left _ (List.Mem.tail _ (List.Mem.tail _ (List.Mem.head _))))
  · exact List.mem_append_left _
      (List.mem_append_right _ (List.Mem.head _))

/-! ### Key-membership helpers for the generated mappings -/

theorem mem_networksKeys_fixed (c : Config) (k : String)
    (hk : k = "externalnet" ∨ k = "internalnet" ∨ k = "gameserver") :
    k ∈ (composeNetworks c).map Prod.fst := by
  simp only [composeNetworks, List.map_append, List.mem_append]
  refine Or.inl (Or.inl ?_)
  rcases hk with rfl | rfl | rfl <;> simp

theorem mem_networksKeys_vm (c : Config) (t : Team) (ht : t ∈ c.teams) :
    ("vm-team" ++ toString t.id) ∈ (composeNetworks c).map Prod.fst := by
  simp only [composeNetworks, List.map_append, List.map_map]
  exact List.mem_append_left _
    (List.mem_append_right _ (List.mem_map_of_mem _ ht))

theorem mem_networksKeys_players (c : Config) (t : Team)
    (ht : t ∈ c.teams.filter fun u => !u.nop) :
    ("players" ++ toString t.id) ∈ (composeNetworks c).map Prod.fst := by
  simp only [composeNetworks, List.map_append, List.map_map]
  exact List.mem_append_right _ (List.mem_map_of_mem _ ht)

theorem mem_servicesKeys_fixed (env : SysEnv) (c : Config) (k : String)
    (hk : k = "router" ∨ k = "database" ∨ k = "gameserver") :
    k ∈ (composeServices env c).map Prod.fst := by
  simp only [composeServices, List.map_append, List.mem_append]
  refine Or.inl (Or.inl ?_)
  rcases hk with rfl | rfl | rfl <;> simp

theorem mem_servicesKeys_team (env : SysEnv) (c : Config) (t : Team) (ht : t ∈ c.teams) :
    ("team" ++ toString t.id) ∈ (composeServices env c).map Prod.fst := by
  simp only [composeServices, List.map_append, List.map_map]
  exact List.mem_append_left _
    (List.mem_append_right _ (List.mem_map_of_mem _ ht))

theorem mem_servicesKeys_wireguard (env : SysEnv) (c : Config) (t : Team)
    (ht : t ∈ c.teams.filter fun u => !u.nop) :
    ("wireguard" ++ toString t.id) ∈ (composeServices env c).map Prod.fst := by
  simp only [composeServices, List.map_append, List.map_map]
  exact List.mem_append_right _ (List.mem_map_of_mem _ ht)

theorem mem_routerKeys_vm (c : Config) (t : Team) (ht : t ∈ c.teams) :
    ("vm-team" ++ toString t.id) ∈ (routerNetworks c).map Prod.fst := by
  simp only [routerNetworks, List.map_append, List.map_map]
  exact List.mem_append_left _ (List.mem_append_left _ (List.mem_map_of_mem _ ht))

theorem mem_routerKeys_players (c : Config) (t : Team)
    (ht : t ∈ c.teams.filter fun u => !u.nop) :
    ("players" ++ toString t.id) ∈ (routerNetworks c).map Prod.fst := by
  simp only [routerNetworks, List.map_append, List.map_map]
  exact List.mem_append_right _ (List.mem_map_of_mem _ ht)

theorem mem_routerKeys_gameserver (c : Config) :
    ("gameserver" : String) ∈ (routerNetworks c).map Prod.fst := by
  simp only [routerNetworks, List.map_append, List.mem_append]
  exact Or.inl (Or.inr (by simp))

theorem mem_routerKeys_externalnet (c : Config) :
    ("externalnet" : String) ∈ (routerNetworks c).map Prod.fst := by
  simp only [routerNetworks, List.map_append, List.mem_append]
  exact Or.inl (Or.inr (by simp))

theorem internalnet_not_mem_routerKeys (c : Config) :
    ("internalnet" : String) ∉ (routerNetworks c).map Prod.fst := by
  intro hmem
  simp only [routerNetworks, List.map_append, List.map_map, List.mem_append] at hmem
  rcases hmem with (h | h) | h
  · obtain ⟨t, _, heq⟩ := List.mem_map.mp h
    exact key_ne_lit "vm-team" 'v' rfl "internalnet" 'i' rfl (by decide) (toString t.id) heq
  · exact absurd h (by decide)
  · obtain ⟨t, _, heq⟩ := List.mem_map.mp h
    exact key_ne_lit "players" 'p' rfl "internalnet" 'i' rfl (by decide) (toString t.id) heq

/-- C6 counterexample: the config with `wireguard_start_port = 65533` and 5
teams is not rejected — `write_compose` emits the full set of network and
service entries, allocating ports up to 65537 > 65535; no error path
exists in the compiler. -/
theorem c6_counterexample_no_rejection :
    wireguardPorts cfgBad = [65533, 65534, 65535, 65536, 65537] ∧
    (composeServices env0 cfgBad).map Prod.fst =
      ["router", "database", "gameserver",
       "team0", "team1", "team2", "team3", "team4",
       "wireguard0", "wireguard1", "wireguard2", "wireguard3", "wireguard4"] ∧
    (composeNetworks cfgBad).map Prod.fst =
      ["externalnet", "internalnet", "gameserver",
       "vm-team0", "vm-team1", "vm-team2", "vm-team3", "vm-team4",
       "players0", "players1", "players2", "players3", "players4"] ∧
    (wireguardService env0 cfgBad (Team.mk 4 "Team 4" (tokenA 4) 65537 false "" [])).field
        "ports"
      = some (.list [.scalar "65537:51820/udp"]) := by
  refine ⟨by decide, by decide, by decide, rfl⟩

/-- C6 amended: the port-range check lives in `config_input`'s input loop,
not in the compiler: a start port is accepted only when
`1 ≤ p ≤ 65535 - number_of_teams`, and every team array generated from
accepted input keeps all wireguard ports ≤ 65535.  `write_compose` itself
performs no validation (see the counterexample). -/
theorem c6_config_input_validation (n p : Nat) (e : Bool) (tok : Nat → String)
    (hn : teams_count_accepted n = true) (hp : wireguard_port_accepted n p = true) :
    ∀ t ∈ generate_teams_array n e p tok, t.wireguard_port ≤ 65535 := by
  intro t ht
  simp only [teams_count_accepted, decide_eq_true_eq] at hn
  simp only [wireguard_port_accepted, Bool.and_eq_true, decide_eq_true_eq] at hp
  simp only [generate_teams_array, List.mem_map, List.mem_range] at ht
  obtain ⟨i, hi, hteq⟩ := ht
  subst hteq
  show p + i ≤ 65535
  have hi' : i < n + 1 := by rcases e <;> simp at hi <;> omega
  omega

theorem c6_config_input_validation_witness :
    teams_count_accepted 4 = true ∧ wireguard_port_accepted 4 51000 = true ∧
    (Team.mk 0 "Team 0" (tokenA 0) 51000 false "" []).wireguard_port ≤ 65535 :=
  ⟨by decide, by decide,
   c6_config_input_validation 4 51000 false tokenA (by decide) (by decide)
     (Team.mk 0 "Team 0" (tokenA 0) 51000 false "" []) (by decide)⟩

/-- C7 counterexample: the compiler emits an internal-only network
(`internalnet`), but the router service is not attached to it, contrary to
the claim that the router is attached to every network of stages 1–2. -/
theorem c7_counterexample_router_not_on_internalnet :
    "internalnet" ∈ (composeNetworks cfg4).map Prod.fst ∧
    "internalnet" ∉ (routerNetworks cfg4).map Prod.fst := by
  constructor <;> decide

/-- C7 amended: the router service is attached to every network the
compiler emits except the internal-only network `internalnet`: the
external-facing network, the shared gameserver network, each team's VM
network and each non-nop team's player network; its environment carries the
team count (`NTEAM`) and the bandwidth limit (`RATE_NET`). -/
theorem c7_router_attachments (c : Config) :
    attachNames (routerService c) = (routerNetworks c).map Prod.fst ∧
    (∀ k ∈ (composeNetworks c).map Prod.fst, k ≠ "internalnet" →
      k ∈ (routerNetworks c).map Prod.fst) ∧
    ("internalnet" : String) ∉ (routerNetworks c).map Prod.fst ∧
    (routerService c).field "environment"
      = some (.dict [("NTEAM", .scalar (toString c.teams.length)),
                     ("RATE_NET", .scalar c.network_limit_bandwidth)]) := by
  refine ⟨rfl, ?_, internalnet_not_mem_routerKeys c, rfl⟩
  intro k hk hne
  simp only [composeNetworks, List.map_append, List.map_map, List.mem_append] at hk
  rcases hk with (h | h) | h
  · simp only [List.map_cons, List.map_nil, List.mem_cons, List.mem_singleton,
      List.not_mem_nil, or_false] at h
    rcases h with rfl | rfl | rfl
    · exact mem_routerKeys_externalnet c
    · exact absurd rfl hne
    · exact mem_routerKeys_gameserver c
  · obtain ⟨t, ht, heq⟩ := List.mem_map.mp h
    exact heq ▸ mem_routerKeys_vm c t ht
  · obtain ⟨t, ht, heq⟩ := List.mem_map.mp h
    exact heq ▸ mem_routerKeys_players c t ht

theorem c7_router_attachments_witness :
    "externalnet" ∈ (composeNetworks cfg4).map Prod.fst ∧
    "externalnet" ∈ (routerNetworks cfg4).map Prod.fst :=
  ⟨by decide,
   (c7_router_attachments cfg4).2.1 "externalnet" (by decide) (by decide)⟩

theorem c2_address_allocation_witness :
    (Team.mk 1 "Team 1" (tokenA 1) 51001 false "" []) ∈ cfg4.teams ∧
    ("vm-team1", Value.dict [
        ("priority", .scalar "10"),
        ("ipv4_address", .scalar "10.60.1.250")]) ∈ routerNetworks cfg4 :=
  ⟨by decide,
   (c2_address_allocation env0 cfg4 (Team.mk 1 "Team 1" (tokenA 1) 51001 false "" [])
     (by decide)).2.1⟩

/-- C9: the compiled topology is internally consistent: every name in any
service's `depends_on` set is the key of a service of the topology, and
every network name attached to a service is the key of a network
definition in the topology's `networks` mapping. -/
theorem c9_topology_consistent (env : SysEnv) (c : Config) :
    ∀ p ∈ composeServices env c,
      (∀ d ∈ dependsNames p.2, d ∈ (composeServices env c).map Prod.fst) ∧
      (∀ a ∈ attachNames p.2, a ∈ (composeNetworks c).map Prod.fst) := by
  intro p hp
  simp only [composeServices, List.mem_append, List.mem_cons, List.mem_map,
    List.not_mem_nil, or_false] at hp
  rcases hp with ((rfl | rfl | rfl) | ⟨t, ht, rfl⟩) | ⟨t, ht, rfl⟩
  · -- router
    refine ⟨?_, ?_⟩
    · intro d hd
      rw [dependsNames_routerService] at hd
      exact absurd hd (List.not_mem_nil d)
    · intro a ha
      rw [attachNames_routerService] at ha
      simp only [routerNetworks, List.map_append, List.map_map, List.mem_append] at ha
      rcases ha with (h | h) | h
      · obtain ⟨u, hu, heq⟩ := List.mem_map.mp h
        exact heq ▸ mem_networksKeys_vm c u hu
      · simp only [List.map_cons, List.map_nil, List.mem_cons,
          List.not_mem_nil, or_false] at h
        rcases h with rfl | rfl
        · exact mem_networksKeys_fixed c _ (Or.inr (Or.inr rfl))
        · exact mem_networksKeys_fixed c _ (Or.inl rfl)
      · obtain ⟨u, hu, heq⟩ := List.mem_map.mp h
        exact heq ▸ mem_networksKeys_players c u hu
  · -- database
    refine ⟨?_, ?_⟩
    · intro d hd
      rw [dependsNames_databaseService] at hd
      exact absurd hd (List.not_mem_nil d)
    · intro a ha
      rw [attachNames_databaseService] at ha
      simp only [List.mem_singleton] at ha
      exact ha ▸ mem_networksKeys_fixed c _ (Or.inr (Or.inl rfl))
  · -- gameserver
    refine ⟨?_, ?_⟩
    · intro d hd
      rw [dependsNames_gameserverService] at hd
      simp only [List.mem_cons, List.mem_map] at hd
      rcases hd with rfl | rfl | ⟨u, hu, rfl⟩
      · exact mem_servicesKeys_fixed env c _ (Or.inl rfl)
      · exact mem_servicesKeys_fixed env c _ (Or.inr (Or.inl rfl))
      · exact mem_servicesKeys_team env c u hu
    · intro a ha
      rw [attachNames_gameserverService] at ha
      simp only [List.mem_cons, List.mem_singleton, List.not_mem_nil, or_false] at ha
      rcases ha with rfl | rfl
      · exact mem_networksKeys_fixed c _ (Or.inr (Or.inl rfl))
      · exact mem_networksKeys_fixed c _ (Or.inr (Or.inr rfl))
  · -- team VM service
    refine ⟨?_, ?_⟩
    · intro d hd
      rw [dependsNames_teamService] at hd
      exact absurd hd (List.not_mem_nil d)
    · intro a ha
      rw [attachNames_teamService] at ha
      simp only [List.mem_singleton] at ha
      exact ha ▸ mem_networksKeys_vm c t ht
  · -- wireguard VPN service
    refine ⟨?_, ?_⟩
    · intro d hd
      rw [dependsNames_wireguardService] at hd
      exact absurd hd (List.not_mem_nil d)
    · intro a ha
      rw [attachNames_wireguardService] at ha
      simp only [List.mem_singleton] at ha
      exact ha ▸ mem_networksKeys_players c t ht

theorem c9_topology_consistent_witness :
    ("gameserver", gameserverService cfg4) ∈ composeServices env0 cfg4 ∧
    "team0" ∈ dependsNames (gameserverService cfg4) ∧
    "team0" ∈ (composeServices env0 cfg4).map Prod.fst := by
  have hmem : ("gameserver", gameserverService cfg4) ∈ composeServices env0 cfg4 :=
    List.mem_append_left _
      (List.mem_append_left _ (List.Mem.tail _ (List.Mem.tail _ (List.Mem.head _))))
  have hdep : "team0" ∈ dependsNames (gameserverService cfg4) := by decide
  exact ⟨hmem, hdep,
    (c9_topology_consistent env0 cfg4 ("gameserver", gameserverService cfg4) hmem).1
      "team0" hdep⟩

/-- C5: a nop team appears in no player/VPN-class network or service: the
topology has no `players{id}` network definition for it, no `wireguard{id}`
VPN endpoint service, and no router attachment to a players network with
its id — while it still has a VM network, a VM service, and an edge in the
gameserver dependency set.  (Team ids are assumed pairwise distinct, per
the dense-id invariant of the Config Model.) -/
theorem c5_nop_team_exclusion (env : SysEnv) (c : Config)
    (hids : (c.teams.map Team.id).Nodup) (t : Team)
    (ht : t ∈ c.teams) (hnop : t.nop = true) :
    ("players" ++ toString t.id) ∉ (composeNetworks c).map Prod.fst ∧
    ("wireguard" ++ toString t.id) ∉ (composeServices env c).map Prod.fst ∧
    ("players" ++ toString t.id) ∉ (routerNetworks c).map Prod.fst ∧
    ("vm-team" ++ toString t.id) ∈ (composeNetworks c).map Prod.fst ∧
    ("team" ++ toString t.id) ∈ (composeServices env c).map Prod.fst ∧
    ("team" ++ toString t.id) ∈ dependsNames (gameserverService c) := by
  have hplayers_ne : ∀ u ∈ c.teams.filter (fun u => !u.nop),
      ("players" ++ toString u.id) ≠ ("players" ++ toString t.id) := by
    intro u hu heq
    have hid := key_suffix_inj "players" heq
    have hmemu := (List.mem_filter.mp hu).1
    have hnopu := (List.mem_filter.mp hu).2
    have hut : u = t := List.inj_on_of_nodup_map hids hmemu ht hid
    rw [hut, hnop] at hnopu
    exact absurd hnopu (by simp)
  have hwire_ne : ∀ u ∈ c.teams.filter (fun u => !u.nop),
      ("wireguard" ++ toString u.id) ≠ ("wireguard" ++ toString t.id) := by
    intro u hu heq
    have hid := key_suffix_inj "wireguard" heq
    have hmemu := (List.mem_filter.mp hu).1
    have hnopu := (List.mem_filter.mp hu).2
    have hut : u = t := List.inj_on_of_nodup_map hids hmemu ht hid
    rw [hut, hnop] at hnopu
    exact absurd hnopu (by simp)
  refine ⟨?_, ?_, ?_, mem_networksKeys_vm c t ht, mem_servicesKeys_team env c t ht, ?_⟩
  · intro hmem
    simp only [composeNetworks, List.map_append, List.map_map, List.mem_append] at hmem
    rcases hmem with (h | h) | h
    · simp only [List.map_cons, List.map_nil, List.mem_cons,
        List.not_mem_nil, or_false] at h
      rcases h with h | h | h
      · exact key_ne_lit "players" 'p' rfl "externalnet" 'e' rfl (by decide) _ h
      · exact key_ne_lit "players" 'p' rfl "internalnet" 'i' rfl (by decide) _ h
      · exact key_ne_lit "players" 'p' rfl "gameserver" 'g' rfl (by decide) _ h
    · obtain ⟨u, _, heq⟩ := List.mem_map.mp h
      exact key_ne_key "vm-team" "players" 'v' 'p' rfl rfl (by decide) _ _ heq
    · obtain ⟨u, hu, heq⟩ := List.mem_map.mp h
      exact hplayers_ne u hu heq
  · intro hmem
    simp only [composeServices, List.map_append, List.map_map, List.mem_append] at hmem
    rcases hmem with (h | h) | h
    · simp only [List.map_cons, List.map_nil, List.mem_cons,
        List.not_mem_nil, or_false] at h
      rcases h with h | h | h
      · exact key_ne_lit "wireguard" 'w' rfl "router" 'r' rfl (by decide) _ h
      · exact key_ne_lit "wireguard" 'w' rfl "database" 'd' rfl (by decide) _ h
      · exact key_ne_lit "wireguard" 'w' rfl "gameserver" 'g' rfl (by decide) _ h
    · obtain ⟨u, _, heq⟩ := List.mem_map.mp h
      exact key_ne_key "team" "wireguard" 't' 'w' rfl rfl (by decide) _ _ heq
    · obtain ⟨u, hu, heq⟩ := List.mem_map.mp h
      exact hwire_ne u hu heq
  · intro hmem
    simp only [routerNetworks, List.map_append, List.map_map, List.mem_append] at hmem
    rcases hmem with (h | h) | h
    · obtain ⟨u, _, heq⟩ := List.mem_map.mp h
      exact key_ne_key "vm-team" "players" 'v' 'p' rfl rfl (by decide) _ _ heq
    · simp only [List.map_cons, List.map_nil, List.mem_cons,
        List.not_mem_nil, or_false] at h
      rcases h with h | h
      · exact key_ne_lit "players" 'p' rfl "gameserver" 'g' rfl (by decide) _ h
      · exact key_ne_lit "players" 'p' rfl "externalnet" 'e' rfl (by decide) _ h
    · obtain ⟨u, hu, heq⟩ := List.mem_map.mp h
      exact hplayers_ne u hu heq
  · rw [dependsNames_gameserverService]
    exact List.mem_cons_of_mem _ (List.mem_cons_of_mem _ (List.mem_map_of_mem _ ht))

theorem c5_nop_team_exclusion_witness :
    ("players" ++ toString (0 : Nat)) ∉ (composeNetworks cfgNop).map Prod.fst ∧
    ("team" ++ toString (0 : Nat)) ∈ (composeServices env0 cfgNop).map Prod.fst := by
  have h := c5_nop_team_exclusion env0 cfgNop (by decide)
    (Team.mk 0 "Nop Team" (tokenA 0) 51000 true "" []) (by decide) rfl
  exact ⟨h.1, h.2.2.2.2.1⟩

end Oasis

